import Mathlib

/- Verification development for the incident-assistant request pipeline
   of lambda_function.py.

   The embedding models the pure computations of the source directly as
   Lean functions (limit extraction, prompt formatting, prompt
   composition, response serialization).  The two external collaborators
   (the DynamoDB scan and the Bedrock model invocation) and the inbound
   body parse are modelled as explicit oracle values carried in an
   Oracle structure: each oracle is the outcome of the corresponding
   external call, an Except whose error case carries str(e) of the
   exception the call would raise.  Machine strings are Lean String
   values; the regex model is full Unicode, as re.search without the
   re.ASCII flag behaves (see the limit-extraction section). -/

/-! ## Limit extraction: determine_incident_limit

The source runs re.search with pattern "last (\d+) incidents" under
re.IGNORECASE and returns int of the digit group, defaulting to 5.  No
re.ASCII flag is set, so \d is any Unicode decimal digit (general
category Nd) and case-insensitive matching is full Unicode: sre_compile
lowers each pattern literal, attaches its case-equivalence fixes
(the _ignorecase_fixes table), and the engine accepts an input
character exactly when its simple Unicode lowercase
(Py_UNICODE_TOLOWER) lies in the literal's equivalence class.  The ten
distinct literals of this pattern are all lowercase ASCII, so each
position's acceptance set is finite and small, and the model lists the
sets explicitly: the only characters whose simple lowercase is an
ASCII letter are the ASCII uppercase letters, U+0130 LATIN CAPITAL
LETTER I WITH DOT ABOVE (lowering to i) and U+212A KELVIN SIGN
(lowering to k, absent from this pattern), and the fixes table adds
U+017F LATIN SMALL LETTER LONG S to the class of s and U+0131 LATIN
SMALL LETTER DOTLESS I to the class of i.  The greedy digit run needs
no backtracking: the character after the run must match a space, and a
digit never does. -/

/-- The Unicode 15.0 decimal-digit (Nd) ranges as first codepoint and
length; every range carries the digit values 0-9 in ascending order (a
Unicode stability invariant).  CPython 3.12 ships this table; older
interpreters lack the ranges of the newest scripts. -/
def ndRanges : List (Nat × Nat) :=
  [(0x30, 10), (0x660, 10), (0x6F0, 10), (0x7C0, 10), (0x966, 10),
   (0x9E6, 10), (0xA66, 10), (0xAE6, 10), (0xB66, 10), (0xBE6, 10),
   (0xC66, 10), (0xCE6, 10), (0xD66, 10), (0xDE6, 10), (0xE50, 10),
   (0xED0, 10), (0xF20, 10), (0x1040, 10), (0x1090, 10), (0x17E0, 10),
   (0x1810, 10), (0x1946, 10), (0x19D0, 10), (0x1A80, 10), (0x1A90, 10),
   (0x1B50, 10), (0x1BB0, 10), (0x1C40, 10), (0x1C50, 10), (0xA620, 10),
   (0xA8D0, 10), (0xA900, 10), (0xA9D0, 10), (0xA9F0, 10), (0xAA50, 10),
   (0xABF0, 10), (0xFF10, 10), (0x104A0, 10), (0x10D30, 10), (0x11066, 10),
   (0x110F0, 10), (0x11136, 10), (0x111D0, 10), (0x112F0, 10), (0x11450, 10),
   (0x114D0, 10), (0x11650, 10), (0x116C0, 10), (0x11730, 10), (0x118E0, 10),
   (0x11950, 10), (0x11C50, 10), (0x11D50, 10), (0x11DA0, 10), (0x11F50, 10),
   (0x16A60, 10), (0x16AC0, 10), (0x16B50, 10), (0x1D7CE, 50), (0x1E140, 10),
   (0x1E2F0, 10), (0x1E4F0, 10), (0x1E950, 10), (0x1FBF0, 10)]

/-- The character class \d without re.ASCII: any Unicode decimal digit. -/
def isDigitNd (c : Char) : Bool :=
  ndRanges.any (fun r => r.1 ≤ c.toNat && c.toNat < r.1 + r.2)

/-- Decimal value of one digit character, as int() reads the matched
group (0 on non-digits, which the group never contains). -/
def digitVal (c : Char) : Nat :=
  match ndRanges.find? (fun r => r.1 ≤ c.toNat && c.toNat < r.1 + r.2) with
  | some r => (c.toNat - r.1) % 10
  | none => 0

/-- Numeric value of the matched digit group, as Python int computes
it. -/
def digitsToNat (ds : List Char) : Nat :=
  ds.foldl (fun n c => 10 * n + digitVal c) 0

/-- The compiled form of the literal "last " under full IGNORECASE: at
each position, the set of input characters the engine accepts (see the
section comment for why these sets are exhaustive). -/
def patLast : List (List Char) :=
  [['l', 'L'], ['a', 'A'], ['s', 'S', 'ſ'], ['t', 'T'], [' ']]

/-- The compiled form of the literal " incidents" under full
IGNORECASE, position by position. -/
def patIncidents : List (List Char) :=
  [[' '], ['i', 'I', 'İ', 'ı'], ['n', 'N'], ['c', 'C'],
   ['i', 'I', 'İ', 'ı'], ['d', 'D'], ['e', 'E'], ['n', 'N'],
   ['t', 'T'], ['s', 'S', 'ſ']]

/-- Pointwise membership of the input characters in the per-position
acceptance sets of a compiled literal. -/
def ciList : List Char → List (List Char) → Bool
  | [], [] => true
  | x :: xs, cl :: ps => cl.contains x && ciList xs ps
  | _, _ => false

/-- Strip a compiled literal from the front of the input, returning
the remainder on success. -/
def stripCI : List (List Char) → List Char → Option (List Char)
  | [], s => some s
  | _ :: _, [] => none
  | cl :: ps, c :: cs => if cl.contains c then stripCI ps cs else none

/-- Anchored match of the pattern at the start of the input: "last ",
then a maximal nonempty digit run, then " incidents".  Returns the
numeric value of the digit group. -/
def matchLastN (s : List Char) : Option Nat :=
  match stripCI patLast s with
  | none => none
  | some r =>
    if (r.takeWhile isDigitNd).isEmpty then none
    else
      match stripCI patIncidents (r.dropWhile isDigitNd) with
      | none => none
      | some _ => some (digitsToNat (r.takeWhile isDigitNd))

/-- re.search: try the anchored match at each position, leftmost first. -/
def searchLastN : List Char → Option Nat
  | [] => none
  | c :: t =>
    match matchLastN (c :: t) with
    | some n => some n
    | none => searchLastN t

/-- determine_incident_limit of lambda_function.py: value of the digit
group of the first match of "last (\d+) incidents" (case-insensitive),
or the default 5 when there is no match. -/
def determine_incident_limit (user_question : String) : Nat :=
  match searchLastN user_question.data with
  | some n => n
  | none => 5

/-- Declarative match relation: the input starts with a case variant of
"last ", then the nonempty digit group d, then a case variant of
" incidents", then anything. -/
def IsMatch (s : List Char) (d : List Char) : Prop :=
  ∃ a b suf, s = a ++ d ++ b ++ suf ∧ ciList a patLast = true ∧
    d ≠ [] ∧ d.all isDigitNd = true ∧ ciList b patIncidents = true

/-- Declarative occurrence of the pattern at position i of q, with digit
group d. -/
def OccursAt (q : List Char) (i : Nat) (d : List Char) : Prop :=
  IsMatch (q.drop i) d

/-! ## Data model and prompt formatting

An incident record as returned by the scan is a mapping from field
names to type-tagged values; a string value sits under tag "S".  The
formatter builds, per record, a dictionary of eight fixed labels and
serializes the list of dictionaries with json.dumps(..., indent=2). -/

/-- An incident record: field name to type-tagged value (tag "S" holds
a string value; other DynamoDB tags such as "N" carry their payload as
a string as well). -/
abbrev Incident := List (String × List (String × String))

/-- The field access of the formatter:
incident.get(field, {}).get("S", "N/A"). -/
def getS (incident : Incident) (field : String) : String :=
  match incident.lookup field with
  | none => "N/A"
  | some attrs =>
    match attrs.lookup "S" with
    | none => "N/A"
    | some v => v

/-- The eight field labels of a formatted record, in source order. -/
def fieldLabels : List String :=
  ["Incident ID", "Title", "Status", "Priority", "Urgency", "Category",
   "Affected Service", "Root Cause"]

/-- The eight store field names the formatter reads, in source order. -/
def sourceFields : List String :=
  ["id", "title", "status", "priority", "urgency", "category",
   "affectedService", "rootCauseAnalysis"]

/-- The dictionary built for one incident inside
format_incidents_for_prompt. -/
def formatOne (incident : Incident) : List (String × String) :=
  [("Incident ID", getS incident "id"),
   ("Title", getS incident "title"),
   ("Status", getS incident "status"),
   ("Priority", getS incident "priority"),
   ("Urgency", getS incident "urgency"),
   ("Category", getS incident "category"),
   ("Affected Service", getS incident "affectedService"),
   ("Root Cause", getS incident "rootCauseAnalysis")]

/-- One hexadecimal digit, lowercase, as json.dumps emits it. -/
def hexDigitChar (n : Nat) : Char :=
  if n < 10 then Char.ofNat (48 + n) else Char.ofNat (87 + n)

/-- Four-digit hexadecimal rendering used in \uXXXX escapes. -/
def hex4 (n : Nat) : String :=
  String.mk [hexDigitChar (n / 4096 % 16), hexDigitChar (n / 256 % 16),
             hexDigitChar (n / 16 % 16), hexDigitChar (n % 16)]

/-- Escape of one character under json.dumps defaults (ensure_ascii):
quote, backslash and the short control escapes, \uXXXX for the other
control and all non-ASCII characters, surrogate pairs beyond U+FFFF. -/
def escChar (c : Char) : String :=
  if c = '"' then "\\\""
  else if c = '\\' then "\\\\"
  else if c = '\n' then "\\n"
  else if c = '\r' then "\\r"
  else if c = '\t' then "\\t"
  else if c.toNat = 8 then "\\b"
  else if c.toNat = 12 then "\\f"
  else if c.toNat < 32 ∨ c.toNat > 126 then
    if c.toNat < 65536 then "\\u" ++ hex4 c.toNat
    else
      "\\u" ++ hex4 (55296 + (c.toNat - 65536) / 1024) ++
      "\\u" ++ hex4 (56320 + (c.toNat - 65536) % 1024)
  else String.singleton c

/-- json.dumps escaping of a whole string (without the quotes). -/
def pyEscape (s : String) : String := String.join (s.data.map escChar)

/-- A JSON string literal as json.dumps renders it. -/
def dumpStr (s : String) : String := "\"" ++ pyEscape s ++ "\""

/-- json.dumps(objs, indent=2) for a list of flat string-to-string
dictionaries, the exact shape format_incidents_for_prompt serializes
(every dictionary it builds has the eight labels, hence is nonempty). -/
def serializeFormatted (objs : List (List (String × String))) : String :=
  match objs with
  | [] => "[]"
  | _ =>
    "[\n" ++
    String.intercalate ",\n" (objs.map (fun o =>
      "  \x7b\n" ++
      String.intercalate ",\n" (o.map (fun kv =>
        "    " ++ dumpStr kv.1 ++ ": " ++ dumpStr kv.2)) ++
      "\n  \x7d")) ++
    "\n]"

/-- format_incidents_for_prompt of lambda_function.py. -/
def format_incidents_for_prompt (incidents : List Incident) : String :=
  serializeFormatted (incidents.map formatOne)

/-- generate_user_query_prompt of lambda_function.py: the f-string
template around the formatted incident block. -/
def generate_user_query_prompt (incidents : List Incident) (user_question : String) : String :=
  "You are an AI assistant helping with incident management. Below are the most recent incidents:\n\n"
  ++ format_incidents_for_prompt incidents
  ++ "\n\nUser Question: " ++ user_question
  ++ "\n\nPlease provide a clear, professional response."

/-! ## Request handler

The inbound parse, the scan and the model invocation are oracles; the
rest of lambda_handler is modelled verbatim. -/

/-- A JSON value as json.loads can place it under the "user_question"
key of the parsed body.  Container values are abstracted to their
truthiness, the only property the handler reads before failing on them. -/
inductive JLit where
  | str (s : String)
  | int (n : Int)
  | boolean (b : Bool)
  | null
  | list (nonempty : Bool)
  | dict (nonempty : Bool)
deriving DecidableEq

/-- Python truthiness of a JSON value, as tested by
if not user_question. -/
def JLit.truthy : JLit → Bool
  | .str s => s != ""
  | .int n => n != 0
  | .boolean b => b
  | .null => false
  | .list ne => ne
  | .dict ne => ne

/-- The Python type name of a JSON value. -/
def JLit.typeName : JLit → String
  | .str _ => "str"
  | .int _ => "int"
  | .boolean _ => "bool"
  | .null => "NoneType"
  | .list _ => "list"
  | .dict _ => "dict"

/-- str(e) of the TypeError re.search raises when the question value is
not a string (CPython 3.11 wording). -/
def reTypeErrorMsg (v : JLit) : String :=
  "expected string or bytes-like object, got \x27" ++ JLit.typeName v ++ "\x27"

/-- The scan response: its optional "Items" key. -/
structure ScanResp where
  items : Option (List Incident)
deriving DecidableEq

/-- The parsed Bedrock response body: an optional "content" key holding
a list of segments, each with an optional "text" field. -/
structure BResp where
  content : Option (List (Option String))
deriving DecidableEq

/-- Result shape of get_all_incidents: the item list, or the
error dictionary built from the caught exception. -/
inductive FetchOut where
  | items (l : List Incident)
  | failure (msg : String)
deriving DecidableEq

/-- Result shape of invoke_bedrock: the extracted completion text, or
the error dictionary built from the caught exception. -/
inductive BedrockOut where
  | text (s : String)
  | failure (msg : String)
deriving DecidableEq

/-- A response body the handler serializes with json.dumps: an error
dictionary, or the response dictionary wrapping the model output. -/
inductive HandlerBody where
  | errorBody (msg : String)
  | responseBody (r : BedrockOut)
deriving DecidableEq

/-- json.dumps of a handler response body (default separators). -/
def serializeBody : HandlerBody → String
  | .errorBody m => "\x7b\"error\": " ++ dumpStr m ++ "\x7d"
  | .responseBody (.text s) => "\x7b\"response\": " ++ dumpStr s ++ "\x7d"
  | .responseBody (.failure m) =>
      "\x7b\"response\": \x7b\"error\": " ++ dumpStr m ++ "\x7d\x7d"

/-- The outcomes of the external interactions of one request.  parse is
the composite outcome of event["body"], json.loads, and the attribute
access body.get (error: str(e) of the KeyError, decode error, or
AttributeError when the parsed body is not a dictionary); scan is the
outcome of dynamodb_client.scan; bedrock is the outcome of
bedrock_client.invoke_model plus the read and json.loads of its body. -/
structure Oracle where
  parse : Except String (List (String × JLit))
  scan : Except String ScanResp
  bedrock : Except String BResp

/-- The value lambda_handler returns: statusCode plus the already
json.dumps-serialized body string. -/
structure LambdaResult where
  statusCode : Nat
  body : String
deriving DecidableEq

/-- get_all_incidents of lambda_function.py over the scan oracle:
response.get("Items", []) on success, the error dictionary with message
"Error fetching incidents: " ++ str(e) on exception. -/
def get_all_incidents (scan : Except String ScanResp) (tableName : String) (limit : Nat) : FetchOut :=
  match scan with
  | .ok r => .items (r.items.getD [])
  | .error e => .failure ("Error fetching incidents: " ++ e)

/-- invoke_bedrock of lambda_function.py over the bedrock oracle:
response_body.get("content", [{}])[0].get("text", "") on success; any
exception (including the IndexError when "content" is an empty list)
becomes the error dictionary with message
"Error invoking Bedrock: " ++ str(e). -/
def invoke_bedrock (bedrock : Except String BResp) (prompt : String) : BedrockOut :=
  match bedrock with
  | .error e => .failure ("Error invoking Bedrock: " ++ e)
  | .ok r =>
    match r.content with
    | none => .text ""
    | some [] => .failure "Error invoking Bedrock: list index out of range"
    | some (seg :: _) => .text (seg.getD "")

/-- lambda_handler of lambda_function.py.  The outer try/except is the
error case of the parse oracle together with the non-string-question
branch (the TypeError re.search raises); every other path mirrors the
source line by line. -/
def lambda_handler (o : Oracle) : LambdaResult :=
  match o.parse with
  | .error e => ⟨500, serializeBody (.errorBody e)⟩
  | .ok fields =>
    if ((fields.lookup "user_question").getD (.str "")).truthy = false then
      ⟨400, serializeBody (.errorBody "Please provide a user question")⟩
    else
      match (fields.lookup "user_question").getD (.str "") with
      | .str q =>
        match get_all_incidents o.scan "dev-incidents" (determine_incident_limit q) with
        | .failure msg => ⟨500, serializeBody (.errorBody msg)⟩
        | .items incs =>
          if incs.isEmpty then
            ⟨404, serializeBody (.errorBody "No incidents found")⟩
          else
            ⟨200, serializeBody (.responseBody
              (invoke_bedrock o.bedrock (generate_user_query_prompt incs q)))⟩
      | v => ⟨500, serializeBody (.errorBody (reTypeErrorMsg v))⟩

/-! ## Lemmas: the limit extractor implements leftmost regex search -/

theorem stripCI_complete (p : List (List Char)) (a r : List Char)
    (h : ciList a p = true) : stripCI p (a ++ r) = some r := by
  induction p generalizing a with
  | nil =>
    cases a with
    | nil => rfl
    | cons x xs => simp [ciList] at h
  | cons cl ps ih =>
    cases a with
    | nil => simp [ciList] at h
    | cons x xs =>
      simp only [ciList, Bool.and_eq_true] at h
      simp only [List.cons_append, stripCI, h.1, if_true]
      exact ih xs h.2

theorem stripCI_sound (p : List (List Char)) (s r : List Char)
    (h : stripCI p s = some r) : ∃ a, s = a ++ r ∧ ciList a p = true := by
  induction p generalizing s with
  | nil =>
    cases s with
    | nil =>
      refine ⟨[], ?_, rfl⟩
      simpa [stripCI] using h
    | cons c cs =>
      refine ⟨[], ?_, rfl⟩
      simpa [stripCI] using h
  | cons cl ps ih =>
    cases s with
    | nil => simp [stripCI] at h
    | cons c cs =>
      simp only [stripCI] at h
      by_cases hc : cl.contains c = true
      · rw [if_pos hc] at h
        obtain ⟨a, ha, hca⟩ := ih cs h
        refine ⟨c :: a, by simp [ha], ?_⟩
        simp only [ciList, Bool.and_eq_true]
        exact ⟨hc, hca⟩
      · rw [if_neg hc] at h
        cases h

theorem ciList_patIncidents_cons {b : List Char} (h : ciList b patIncidents = true) :
    ∃ bs, b = ' ' :: bs := by
  cases b with
  | nil => simp [ciList, patIncidents] at h
  | cons b0 bs =>
    refine ⟨bs, ?_⟩
    simp only [patIncidents, ciList, Bool.and_eq_true] at h
    have h1 := h.1
    simp at h1
    rw [h1]

theorem takeWhile_dropWhile_append {p : Char → Bool} (d rest : List Char)
    (hd : ∀ c ∈ d, p c = true)
    (hrest : rest = [] ∨ ∃ r0 rs, rest = r0 :: rs ∧ p r0 = false) :
    (d ++ rest).takeWhile p = d ∧ (d ++ rest).dropWhile p = rest := by
  induction d with
  | nil =>
    simp only [List.nil_append]
    rcases hrest with h | ⟨r0, rs, hr, hp0⟩
    · subst h; exact ⟨rfl, rfl⟩
    · subst hr
      constructor
      · exact List.takeWhile_cons_of_neg (by simp [hp0])
      · exact List.dropWhile_cons_of_neg (by simp [hp0])
  | cons c d ih =>
    have hc : p c = true := hd c (List.mem_cons_self c d)
    have ih' := ih (fun x hx => hd x (List.mem_cons_of_mem _ hx))
    constructor
    · simp only [List.cons_append, List.takeWhile_cons_of_pos hc, ih'.1]
    · simp only [List.cons_append, List.dropWhile_cons_of_pos hc, ih'.2]

theorem matchLastN_complete (s d : List Char) (h : IsMatch s d) :
    matchLastN s = some (digitsToNat d) := by
  obtain ⟨a, b, suf, hs, ha, hd0, hdig, hb⟩ := h
  obtain ⟨bs, hbeq⟩ := ciList_patIncidents_cons hb
  have hstrip1 : stripCI patLast s = some (d ++ (b ++ suf)) := by
    rw [hs, List.append_assoc, List.append_assoc]
    exact stripCI_complete patLast a _ ha
  have hdall : ∀ c ∈ d, isDigitNd c = true := List.all_eq_true.mp hdig
  have htd : (d ++ (b ++ suf)).takeWhile isDigitNd = d ∧
      (d ++ (b ++ suf)).dropWhile isDigitNd = b ++ suf := by
    apply takeWhile_dropWhile_append d (b ++ suf) hdall
    exact Or.inr ⟨' ', bs ++ suf, by rw [hbeq]; simp, by decide⟩
  have hstrip2 : stripCI patIncidents (b ++ suf) = some suf :=
    stripCI_complete patIncidents b suf hb
  have hne : d.isEmpty = false := List.isEmpty_eq_false.mpr hd0
  unfold matchLastN
  rw [hstrip1]
  simp only [htd.1, htd.2, hstrip2, hne, Bool.false_eq_true, if_false]

theorem matchLastN_sound (s : List Char) (n : Nat) (h : matchLastN s = some n) :
    ∃ d, IsMatch s d ∧ n = digitsToNat d := by
  unfold matchLastN at h
  cases h1 : stripCI patLast s with
  | none => rw [h1] at h; cases h
  | some r =>
    rw [h1] at h
    simp only at h
    by_cases he : (r.takeWhile isDigitNd).isEmpty = true
    · rw [if_pos he] at h; cases h
    · rw [if_neg he] at h
      cases h2 : stripCI patIncidents (r.dropWhile isDigitNd) with
      | none => rw [h2] at h; cases h
      | some suf =>
        rw [h2] at h
        simp only [Option.some.injEq] at h
        obtain ⟨a, hsa, hca⟩ := stripCI_sound _ _ _ h1
        obtain ⟨b, hsb, hcb⟩ := stripCI_sound _ _ _ h2
        have hr : r = r.takeWhile isDigitNd ++ (b ++ suf) := by
          conv_lhs => rw [← List.takeWhile_append_dropWhile (p := isDigitNd) (l := r)]
          rw [hsb]
        refine ⟨r.takeWhile isDigitNd, ⟨a, b, suf, ?_, hca, ?_, ?_, hcb⟩, h.symm⟩
        · rw [hsa]
          conv_lhs => rw [hr]
          simp [List.append_assoc]
        · intro hnil
          rw [hnil] at he
          exact he rfl
        · exact List.all_takeWhile

theorem matchLastN_nil : matchLastN [] = none := by decide

theorem searchLastN_sound (s : List Char) (n : Nat) (h : searchLastN s = some n) :
    ∃ i, matchLastN (s.drop i) = some n := by
  induction s with
  | nil => cases h
  | cons c t ih =>
    unfold searchLastN at h
    cases hm : matchLastN (c :: t) with
    | some m =>
      rw [hm] at h
      simp only [Option.some.injEq] at h
      exact ⟨0, by rw [List.drop_zero, hm, h]⟩
    | none =>
      rw [hm] at h
      obtain ⟨i, hi⟩ := ih h
      exact ⟨i + 1, by rwa [List.drop_succ_cons]⟩

theorem searchLastN_leftmost (s : List Char) (i n : Nat)
    (hm : matchLastN (s.drop i) = some n)
    (hnone : ∀ j, j < i → matchLastN (s.drop j) = none) :
    searchLastN s = some n := by
  induction s generalizing i with
  | nil =>
    rw [List.drop_nil] at hm
    rw [matchLastN_nil] at hm
    cases hm
  | cons c t ih =>
    cases i with
    | zero =>
      rw [List.drop_zero] at hm
      unfold searchLastN
      rw [hm]
    | succ i =>
      have h0 : matchLastN (c :: t) = none := by
        have := hnone 0 (Nat.succ_pos i)
        rwa [List.drop_zero] at this
      unfold searchLastN
      rw [h0]
      apply ih i
      · rwa [List.drop_succ_cons] at hm
      · intro j hj
        have := hnone (j + 1) (Nat.succ_lt_succ hj)
        rwa [List.drop_succ_cons] at this

theorem searchLastN_none (s : List Char) (h : searchLastN s = none) :
    ∀ i, matchLastN (s.drop i) = none := by
  induction s with
  | nil => intro i; rw [List.drop_nil]; exact matchLastN_nil
  | cons c t ih =>
    unfold searchLastN at h
    cases hm : matchLastN (c :: t) with
    | some m => rw [hm] at h; cases h
    | none =>
      rw [hm] at h
      intro i
      cases i with
      | zero => rw [List.drop_zero]; exact hm
      | succ i => rw [List.drop_succ_cons]; exact ih h i

theorem no_occurs_of_searchLastN_none (q : List Char) (h : searchLastN q = none) :
    ¬ ∃ i d, OccursAt q i d := by
  rintro ⟨i, d, hocc⟩
  have hm := matchLastN_complete _ _ hocc
  rw [searchLastN_none q h i] at hm
  cases hm

theorem occursAt_ge_of_matchLastN_none (q : List Char) (i : Nat)
    (h : ∀ j, j < i → matchLastN (q.drop j) = none) :
    ∀ j e, OccursAt q j e → i ≤ j := by
  intro j e hocc
  by_contra hlt
  push_neg at hlt
  have hm := matchLastN_complete _ _ hocc
  rw [h j hlt] at hm
  cases hm

/-! ## Claim theorems -/

/-- Claim C1: for every user question string, determine_incident_limit
returns the digit-group value N of the first (leftmost)
case-insensitive occurrence of the pattern "last N incidents" when such
an occurrence exists, and returns the fixed default 5 otherwise. -/
theorem C1_determine_incident_limit (q : String) :
    ((¬ ∃ i d, OccursAt q.data i d) → determine_incident_limit q = 5)
    ∧ (∀ i d, OccursAt q.data i d → (∀ j e, OccursAt q.data j e → i ≤ j) →
        determine_incident_limit q = digitsToNat d) := by
  constructor
  · intro hno
    unfold determine_incident_limit
    cases hs : searchLastN q.data with
    | none => rfl
    | some n =>
      exfalso
      obtain ⟨i, hm⟩ := searchLastN_sound _ _ hs
      obtain ⟨d, hocc, -⟩ := matchLastN_sound _ _ hm
      exact hno ⟨i, d, hocc⟩
  · intro i d hocc hleft
    have hm := matchLastN_complete _ _ hocc
    have hnone : ∀ j, j < i → matchLastN (q.data.drop j) = none := by
      intro j hj
      cases hmj : matchLastN (q.data.drop j) with
      | none => rfl
      | some m =>
        exfalso
        obtain ⟨e, he, -⟩ := matchLastN_sound _ _ hmj
        exact absurd (hleft j e he) (by omega)
    have hsearch := searchLastN_leftmost q.data i (digitsToNat d) hm hnone
    unfold determine_incident_limit
    rw [hsearch]

/-- Witness for C1: "now LAST 12 Incidents" has its first occurrence at
position 4 with digit group value 12 (any-case match); the full-Unicode
input "laſt ١٢ incidents" (long s, Arabic-Indic digits)
matches at position 0 with value 12; and "hello" has no occurrence, so
the default 5 applies. -/
theorem C1_determine_incident_limit_witness :
    determine_incident_limit "now LAST 12 Incidents" = 12
    ∧ determine_incident_limit "laſt ١٢ incidents" = 12
    ∧ determine_incident_limit "hello" = 5 := by
  refine ⟨?_, ?_, ?_⟩
  · have hocc : OccursAt (String.data "now LAST 12 Incidents") 4 ['1', '2'] :=
      ⟨['L', 'A', 'S', 'T', ' '],
       [' ', 'I', 'n', 'c', 'i', 'd', 'e', 'n', 't', 's'], [], by decide⟩
    have hleft : ∀ j e, OccursAt (String.data "now LAST 12 Incidents") j e → 4 ≤ j := by
      apply occursAt_ge_of_matchLastN_none
      intro j hj
      interval_cases j <;> decide
    exact ((C1_determine_incident_limit "now LAST 12 Incidents").2 4 ['1', '2']
      hocc hleft).trans (by decide)
  · have hocc : OccursAt (String.data "laſt ١٢ incidents") 0
        ['١', '٢'] :=
      ⟨['l', 'a', 'ſ', 't', ' '],
       [' ', 'i', 'n', 'c', 'i', 'd', 'e', 'n', 't', 's'], [], by decide⟩
    exact ((C1_determine_incident_limit "laſt ١٢ incidents").2 0
      ['١', '٢'] hocc (fun j e h => Nat.zero_le j)).trans (by decide)
  · exact (C1_determine_incident_limit "hello").1
      (no_occurs_of_searchLastN_none _ (by decide))

/-- Claim C3: for every input list of records, the formatter produces
one dictionary per record, each carrying exactly the eight fixed labels
in the fixed order, each label holding the record's "S"-value for the
corresponding source field, with "N/A" for every absent field. -/
theorem C3_formatter_fields (incidents : List Incident) :
    (incidents.map formatOne).length = incidents.length
    ∧ ∀ inc ∈ incidents,
        (formatOne inc).map Prod.fst = fieldLabels
        ∧ (formatOne inc).map Prod.snd = sourceFields.map (getS inc)
        ∧ ∀ f ∈ sourceFields, inc.lookup f = none → getS inc f = "N/A" := by
  refine ⟨by simp, ?_⟩
  intro inc _
  refine ⟨rfl, rfl, ?_⟩
  intro f _ hnone
  simp [getS, hnone]

/-- Witness for C3 at a one-record list with only the "id" field set:
the labels come out in source order and the absent "title" field
renders as "N/A". -/
theorem C3_formatter_fields_witness :
    (formatOne [("id", [("S", "42")])]).map Prod.fst = fieldLabels
    ∧ getS [("id", [("S", "42")])] "title" = "N/A" := by
  have h := (C3_formatter_fields [[("id", [("S", "42")])]]).2
    [("id", [("S", "42")])] (List.mem_singleton.mpr rfl)
  exact ⟨h.1, h.2.2 "title" (by decide) (by decide)⟩

/-- Claim C8: the formatter is a pure, deterministic function: the same
record list always yields byte-identical output, and the output depends
only on the per-record dictionaries. -/
theorem C8_formatter_deterministic :
    (∀ incidents : List Incident,
        format_incidents_for_prompt incidents = format_incidents_for_prompt incidents)
    ∧ ∀ xs ys : List Incident, xs.map formatOne = ys.map formatOne →
        format_incidents_for_prompt xs = format_incidents_for_prompt ys := by
  refine ⟨fun _ => rfl, ?_⟩
  intro xs ys h
  unfold format_incidents_for_prompt
  rw [h]

/-- Witness for C8: a record carrying only a field the formatter never
reads serializes byte-identically to the empty record. -/
theorem C8_formatter_deterministic_witness :
    format_incidents_for_prompt [[("note", [("S", "x")])]] =
      format_incidents_for_prompt [[]] :=
  C8_formatter_deterministic.2 _ _ (by decide)

/-- Claim C10: the formatter unwraps only "S"-tagged values: a field
present under any other type tag renders as the placeholder "N/A",
exactly as an absent field does. -/
theorem C10_non_string_tag (inc : Incident) (f : String)
    (attrs : List (String × String))
    (hf : inc.lookup f = some attrs) (hS : attrs.lookup "S" = none) :
    getS inc f = "N/A" := by
  simp [getS, hf, hS]

/-- Witness for C10: a number-typed priority field renders as "N/A". -/
theorem C10_non_string_tag_witness :
    getS [("priority", [("N", "2")])] "priority" = "N/A" :=
  C10_non_string_tag _ "priority" [("N", "2")] (by decide) (by decide)

/-- Claim C4: when the parsed body lacks the user_question field or
holds it as the empty string, the handler returns status 400 with body
exactly the fixed error object. -/
theorem C4_missing_or_empty_question (o : Oracle) (fields : List (String × JLit))
    (hp : o.parse = .ok fields)
    (hq : fields.lookup "user_question" = none
        ∨ fields.lookup "user_question" = some (.str "")) :
    lambda_handler o =
      ⟨400, "\x7b\"error\": \"Please provide a user question\"\x7d"⟩ := by
  have huq : (fields.lookup "user_question").getD (.str "") = .str "" := by
    rcases hq with h | h <;> rw [h] <;> rfl
  simp only [lambda_handler, hp, huq]
  rfl

/-- Witness for C4 at a body with no user_question key. -/
theorem C4_missing_or_empty_question_witness :
    lambda_handler ⟨.ok [], .ok ⟨none⟩, .ok ⟨none⟩⟩ =
      ⟨400, "\x7b\"error\": \"Please provide a user question\"\x7d"⟩ :=
  C4_missing_or_empty_question _ [] rfl (Or.inl rfl)

/-- Claim C2: when the question is a nonempty string and the fetch
yields at least one record, the handler returns status 200 and wraps
the Model Gateway result under the response key unchanged, whether that
result is the completion text or the gateway failure object; the status
stays 200 for every bedrock oracle. -/
theorem C2_success_wraps_model_output (o : Oracle) (fields : List (String × JLit))
    (q : String) (incs : List Incident)
    (hp : o.parse = .ok fields)
    (hq : (fields.lookup "user_question").getD (.str "") = .str q)
    (hne : q ≠ "")
    (hs : get_all_incidents o.scan "dev-incidents" (determine_incident_limit q) = .items incs)
    (hinc : incs ≠ []) :
    lambda_handler o =
      ⟨200, serializeBody (.responseBody
        (invoke_bedrock o.bedrock (generate_user_query_prompt incs q)))⟩ := by
  have htr : JLit.truthy (.str q) = true := by
    simp [JLit.truthy, hne]
  have hie : incs.isEmpty = false := List.isEmpty_eq_false.mpr hinc
  simp only [lambda_handler, hp, hq, htr, hs, hie, Bool.true_eq_false, if_false,
    Bool.false_eq_true]

/-- Witness for C2: one record fetched, a failing model call; the
failure object is wrapped in a 200 response. -/
theorem C2_success_wraps_model_output_witness :
    lambda_handler ⟨.ok [("user_question", .str "hi")], .ok ⟨some [[]]⟩, .error "boom"⟩ =
      ⟨200, "\x7b\"response\": \x7b\"error\": \"Error invoking Bedrock: boom\"\x7d\x7d"⟩ := by
  have h := C2_success_wraps_model_output
    ⟨.ok [("user_question", .str "hi")], .ok ⟨some [[]]⟩, .error "boom"⟩
    [("user_question", .str "hi")] "hi" [[]] rfl rfl (by decide) (by decide) (by decide)
  exact h.trans (by decide)

/-- Claim C5: when the store fetch fails, the handler returns status
500 with the gateway's error object, whose message carries the store's
error text verbatim; the model gateway result is never consulted. -/
theorem C5_fetch_failure (o : Oracle) (fields : List (String × JLit))
    (q e : String)
    (hp : o.parse = .ok fields)
    (hq : (fields.lookup "user_question").getD (.str "") = .str q)
    (hne : q ≠ "")
    (hs : o.scan = .error e) :
    lambda_handler o =
      ⟨500, serializeBody (.errorBody ("Error fetching incidents: " ++ e))⟩
    ∧ ∀ b1 b2 : Except String BResp,
        lambda_handler { o with bedrock := b1 } =
          lambda_handler { o with bedrock := b2 } := by
  have htr : JLit.truthy (.str q) = true := by
    simp [JLit.truthy, hne]
  have hf : ∀ b : Except String BResp,
      lambda_handler { o with bedrock := b } =
        ⟨500, serializeBody (.errorBody ("Error fetching incidents: " ++ e))⟩ := by
    intro b
    have hg : get_all_incidents o.scan "dev-incidents" (determine_incident_limit q) =
        .failure ("Error fetching incidents: " ++ e) := by
      rw [hs]
      rfl
    simp only [lambda_handler, hp, hq, htr, hg, Bool.true_eq_false, if_false]
  constructor
  · have h := hf o.bedrock
    convert h using 2
  · intro b1 b2
    rw [hf b1, hf b2]

/-- Witness for C5: a failing scan yields the 500 body carrying the
store message, independently of the bedrock oracle. -/
theorem C5_fetch_failure_witness :
    lambda_handler ⟨.ok [("user_question", .str "hi")], .error "socket timeout", .ok ⟨none⟩⟩ =
      ⟨500, "\x7b\"error\": \"Error fetching incidents: socket timeout\"\x7d"⟩
    ∧ lambda_handler ⟨.ok [("user_question", .str "hi")], .error "socket timeout", .error "x"⟩ =
        lambda_handler ⟨.ok [("user_question", .str "hi")], .error "socket timeout", .ok ⟨none⟩⟩ := by
  have h := C5_fetch_failure
    ⟨.ok [("user_question", .str "hi")], .error "socket timeout", .ok ⟨none⟩⟩
    [("user_question", .str "hi")] "hi" "socket timeout" rfl rfl (by decide) rfl
  exact ⟨h.1.trans (by decide), h.2 (.error "x") (.ok ⟨none⟩)⟩

/-- Claim C6: when the fetch succeeds with zero records, the handler
returns status 404 with body exactly the no-incidents error object
(distinct from the 500 of a fetch failure). -/
theorem C6_zero_records (o : Oracle) (fields : List (String × JLit))
    (q : String) (r : ScanResp)
    (hp : o.parse = .ok fields)
    (hq : (fields.lookup "user_question").getD (.str "") = .str q)
    (hne : q ≠ "")
    (hs : o.scan = .ok r) (hz : r.items.getD [] = []) :
    lambda_handler o = ⟨404, "\x7b\"error\": \"No incidents found\"\x7d"⟩ := by
  have htr : JLit.truthy (.str q) = true := by
    simp [JLit.truthy, hne]
  have hg : get_all_incidents o.scan "dev-incidents" (determine_incident_limit q) =
      .items [] := by
    rw [hs]
    simp [get_all_incidents, hz]
  simp only [lambda_handler, hp, hq, htr, hg, Bool.true_eq_false, if_false]
  rfl

/-- Witness for C6: a scan response whose Items list is empty. -/
theorem C6_zero_records_witness :
    lambda_handler ⟨.ok [("user_question", .str "hi")], .ok ⟨some []⟩, .ok ⟨none⟩⟩ =
      ⟨404, "\x7b\"error\": \"No incidents found\"\x7d"⟩ :=
  C6_zero_records ⟨.ok [("user_question", .str "hi")], .ok ⟨some []⟩, .ok ⟨none⟩⟩
    [("user_question", .str "hi")] "hi" ⟨some []⟩ rfl rfl (by decide) rfl rfl

/-- Claim C7: the handler always returns a response value (totality is
by construction: every exception source of the pipeline is modelled as
a value), and each exception the outer try/except catches is mapped to
status 500 with an error body carrying that exception's message: the
parse-stage exception, and the TypeError re.search raises on a truthy
non-string question value. -/
theorem C7_no_exception_escapes (o : Oracle) :
    (∃ res : LambdaResult, lambda_handler o = res)
    ∧ (∀ e, o.parse = .error e →
        lambda_handler o = ⟨500, serializeBody (.errorBody e)⟩)
    ∧ (∀ fields v, o.parse = .ok fields →
        (fields.lookup "user_question").getD (.str "") = v →
        v.truthy = true → (∀ s, v ≠ .str s) →
        lambda_handler o = ⟨500, serializeBody (.errorBody (reTypeErrorMsg v))⟩) := by
  refine ⟨⟨lambda_handler o, rfl⟩, ?_, ?_⟩
  · intro e hp
    simp only [lambda_handler, hp]
  · intro fields v hp hv htr hns
    cases v with
    | str s => exact absurd rfl (hns s)
    | int n => simp only [lambda_handler, hp, hv, htr, Bool.true_eq_false, if_false]
    | boolean b => simp only [lambda_handler, hp, hv, htr, Bool.true_eq_false, if_false]
    | null => simp only [lambda_handler, hp, hv, htr, Bool.true_eq_false, if_false]
    | list ne => simp only [lambda_handler, hp, hv, htr, Bool.true_eq_false, if_false]
    | dict ne => simp only [lambda_handler, hp, hv, htr, Bool.true_eq_false, if_false]

/-- Witness for C7: a failing body parse maps to 500 with the decode
message, and an integer-valued question maps to 500 with the TypeError
message. -/
theorem C7_no_exception_escapes_witness :
    lambda_handler ⟨.error "Expecting value: line 1 column 1 (char 0)", .ok ⟨none⟩, .ok ⟨none⟩⟩ =
      ⟨500, "\x7b\"error\": \"Expecting value: line 1 column 1 (char 0)\"\x7d"⟩
    ∧ lambda_handler ⟨.ok [("user_question", .int 7)], .ok ⟨none⟩, .ok ⟨none⟩⟩ =
        ⟨500, "\x7b\"error\": \"expected string or bytes-like object, got \x27int\x27\"\x7d"⟩ := by
  constructor
  · exact ((C7_no_exception_escapes
      ⟨.error "Expecting value: line 1 column 1 (char 0)", .ok ⟨none⟩, .ok ⟨none⟩⟩).2.1
      "Expecting value: line 1 column 1 (char 0)" rfl).trans (by decide)
  · exact ((C7_no_exception_escapes
      ⟨.ok [("user_question", .int 7)], .ok ⟨none⟩, .ok ⟨none⟩⟩).2.2
      [("user_question", .int 7)] (.int 7) rfl rfl (by decide)
      (fun s h => JLit.noConfusion h)).trans (by decide)

/-- Claim C9: every response status code of the handler is 200, 400,
404 or 500. -/
theorem C9_status_codes (o : Oracle) :
    (lambda_handler o).statusCode = 200 ∨ (lambda_handler o).statusCode = 400
    ∨ (lambda_handler o).statusCode = 404 ∨ (lambda_handler o).statusCode = 500 := by
  unfold lambda_handler
  repeat' split
  all_goals first
    | exact Or.inl rfl
    | exact Or.inr (Or.inl rfl)
    | exact Or.inr (Or.inr (Or.inl rfl))
    | exact Or.inr (Or.inr (Or.inr rfl))
